import Mathlib

/-!
Verification of the trading decision engine (trader.py, technical_analysis.py,
config.py) against its natural-language specification.

The Python source is shallowly embedded over exact rational arithmetic (`ℚ`):
prices, balances, scores and confidences are rationals; Python `None` becomes
`Option`; a Python float `NaN` (reachable in the pandas RSI pipeline through
0/0) is represented by `Option.none` in the RSI result.  Calendar dates are
abstracted to integers, since the code only ever compares trade dates for
equality with today's date.
-/

namespace TraderBot

/-! ## trader.py: daily limits and the trading loop guard

`AdvancedTrader.check_daily_limits` (trader.py lines 419-441) filters the
trade history down to trades whose date equals today, rejects when there are
already 50 or more, then fetches the balance (rejecting when the fetch yields
no value or a falsy 0 balance), and finally compares the risk already used
today with the daily risk budget.  A trade record enters this check only
through its calendar date, so the history is embedded as the list of trade
dates. `risk_per_trade = 0.01` and `max_daily_risk = 0.05` are the instance
constants set in `AdvancedTrader.__init__`. -/

def riskPerTrade : ℚ := 1/100

def maxDailyRisk : ℚ := 5/100

def todaysTrades (dates : List ℤ) (today : ℤ) : List ℤ :=
  dates.filter (fun d => d = today)

def check_daily_limits (dates : List ℤ) (today : ℤ) (balance : Option ℚ) : Bool :=
  let todays := todaysTrades dates today
  if 50 ≤ todays.length then false
  else
    match balance with
    | none => false
    | some b =>
        if b = 0 then false
        else
          let dailyRisk : ℚ := (todays.length : ℚ) * (b * riskPerTrade)
          let maxAmount : ℚ := b * maxDailyRisk
          decide (dailyRisk < maxAmount)

/-- The seven instruments configured in `AdvancedTrader.__init__`. -/
def instrumentNames : List String :=
  ["EUR_USD", "GBP_USD", "USD_JPY", "USD_CHF", "AUD_USD", "USD_CAD", "NZD_USD"]

def maxPositions : ℕ := 5

/-- One iteration of `AdvancedTrader.trading_loop` (trader.py lines 447-523),
returning the list of (instrument, units) orders actually executed in that
cycle.  The guard structure is embedded literally: a failed
`check_daily_limits` skips the whole cycle, as does a full position book;
everything downstream of the per-instrument guards (spread filter, signal
generation, sizing, broker call) is abstracted into `decide`, which yields
the units executed for an instrument or `none` when any of those later steps
declines to trade. -/
def trading_cycle (dates : List ℤ) (today : ℤ) (balance : Option ℚ)
    (exposure : List String) (decide : String → Option ℤ) : List (String × ℤ) :=
  if check_daily_limits dates today balance = false then []
  else if maxPositions ≤ exposure.length then []
  else instrumentNames.filterMap (fun i =>
    if i ∈ exposure then none
    else (decide i).map (fun u => (i, u)))

/-! ## trader.py: correlation penalty

`AdvancedTrader.calculate_correlation_penalty` (trader.py lines 685-713):
a hard-coded table of correlated pairs; the penalty accumulates 0.15 for
every correlated instrument currently holding exposure and is capped at 0.5.
The caller, `calculate_advanced_signals` (line 260), multiplies the fused
score by `(1 - correlation_penalty)`. -/

def correlation_pairs (instrument : String) : List String :=
  if instrument = "EUR_USD" then ["GBP_USD", "AUD_USD"]
  else if instrument = "GBP_USD" then ["EUR_USD", "AUD_USD"]
  else if instrument = "USD_JPY" then ["USD_CHF", "USD_CAD"]
  else if instrument = "USD_CHF" then ["USD_JPY", "USD_CAD"]
  else if instrument = "AUD_USD" then ["EUR_USD", "GBP_USD", "NZD_USD"]
  else if instrument = "USD_CAD" then ["USD_JPY", "USD_CHF"]
  else if instrument = "NZD_USD" then ["AUD_USD"]
  else []

/-- Number of instruments correlated with `instrument` that currently hold
open exposure (exposure is the list of instruments with nonzero net units). -/
def correlatedCount (exposure : List String) (instrument : String) : ℕ :=
  ((correlation_pairs instrument).filter (fun r => r ∈ exposure)).length

/-- The penalty as a function of the correlated-exposure count:
0.15 per correlated open position, capped at 0.5. -/
def penaltyOfCount (c : ℕ) : ℚ := min ((c : ℚ) * (15/100)) (1/2)

def calculate_correlation_penalty (exposure : List String) (instrument : String) : ℚ :=
  if exposure = [] then 0
  else min ((correlatedCount exposure instrument : ℚ) * (15/100)) (1/2)

/-- Application site of the penalty in `calculate_advanced_signals`
(trader.py line 260): the combined score is scaled by `1 - penalty`. -/
def applyCorrelationPenalty (score penalty : ℚ) : ℚ := score * (1 - penalty)

/-! ## trader.py: market regime classification

`AdvancedTrader.analyze_market_regime` (trader.py lines 181-203): with fewer
than 10 balance samples the regime is NORMAL; otherwise the mean of the nine
relative balance changes over the last 10 samples is compared with 2% and
0.5%.  A zero balance among the divisors raises ZeroDivisionError in Python,
which the enclosing `except` turns into NORMAL; that guard is embedded
explicitly. -/

def volatileThreshold : ℚ := 2/100

def trendingThreshold : ℚ := 5/1000

def last10 (h : List ℚ) : List ℚ := h.drop (h.length - 10)

/-- Relative changes `abs (x i - x (i-1)) / x (i-1)` over a window. -/
def relChanges (recent : List ℚ) : List ℚ :=
  List.zipWith (fun cur prev => |cur - prev| / prev) recent.tail recent

def meanRelChange (recent : List ℚ) : ℚ :=
  (relChanges recent).sum / ((relChanges recent).length : ℚ)

def analyze_market_regime (h : List ℚ) : String :=
  if h.length < 10 then "NORMAL"
  else if (last10 h).dropLast.any (fun b => b == 0) then "NORMAL"
  else if volatileThreshold < meanRelChange (last10 h) then "VOLATILE"
  else if meanRelChange (last10 h) < trendingThreshold then "TRENDING"
  else "NORMAL"

/-- Balance history whose first step is a 6% jump (maximum relative change
above 5%) followed by a flat tail, so the mean change stays in the NORMAL
band. -/
def crisisExample : List ℚ := [100, 106, 106, 106, 106, 106, 106, 106, 106, 106]

/-! ## trader.py: position sizing

`AdvancedTrader.calculate_optimal_position_size` (trader.py lines 293-332).
Python `int()` truncates toward zero, embedded as `intTrunc`.  The `signal`
argument is accepted but never used by the body, exactly as in the source.
A balance of `none` models `get_balance` returning `None`; the Python guard
`if not balance` is also true for a 0.0 balance. -/

def intTrunc (q : ℚ) : ℤ := q.num / (q.den : ℤ)

def regimePositionMultiplier (regime : String) : ℚ :=
  if regime = "NORMAL" then 1
  else if regime = "VOLATILE" then 1/2
  else if regime = "TRENDING" then 3/2
  else 1

def calculate_optimal_position_size (balance : Option ℚ) (instrument : String)
    (_signal : String) (confidence : ℚ) (regime : String) : ℤ :=
  match balance with
  | none => 0
  | some b =>
    if b = 0 then 0
    else
      let baseRisk := b * riskPerTrade
      let confidenceMultiplier := confidence * 2
      let regimeMultiplier := regimePositionMultiplier regime
      let riskAmount := baseRisk * confidenceMultiplier * regimeMultiplier
      let units : ℤ :=
        if instrument ∈ ["EUR_USD", "GBP_USD", "AUD_USD", "NZD_USD"] then
          intTrunc (riskAmount * 100)
        else if instrument = "USD_JPY" then intTrunc (riskAmount * 100)
        else intTrunc (riskAmount * 80)
      let maxUnits : ℤ := min 50000 (intTrunc (b * (1/10)))
      let units' := min units maxUnits
      if 0 < units' then max units' 1000 else 0

/-! ## trader.py: performance tracking

`AdvancedTrader.update_performance_tracking` (trader.py lines 816-840) and
its call site `execute_trade` (line 400-404), which appends the trade record
(here reduced to its `expected_profit` field, the only one the tracker reads)
to a deque of maximal length 1000 and then updates the streaks and the
profit factor. -/

structure PerfState where
  win_streak : ℕ
  loss_streak : ℕ
  consecutive_wins : ℕ
  consecutive_losses : ℕ
  profit_factor : ℚ
  trade_history : List ℚ
deriving Repr, DecidableEq

def initPerfState : PerfState :=
  { win_streak := 0, loss_streak := 0, consecutive_wins := 0,
    consecutive_losses := 0, profit_factor := 1, trade_history := [] }

def clampProfitFactor (w l : ℕ) : ℚ :=
  max (1/2) (min 2 (1 + (w : ℚ) * (1/10) - (l : ℚ) * (1/20)))

/-- The last five recorded trades (`trade_history[-5:]`). -/
def recentTrades (s : PerfState) : List ℚ :=
  s.trade_history.drop (s.trade_history.length - 5)

/-- Count of recent trades with positive expected profit.  The Python
majority test `wins > len(recent_trades) / 2` over float division is the
exact condition `len(recent) < 2 * wins`. -/
def recentWins (s : PerfState) : ℕ :=
  ((recentTrades s).filter (fun p => 0 < p)).length

/-- The streak branches write the profit factor from the just-updated streak
counters, so the clamp is applied to the new values directly. -/
def update_performance_tracking (s : PerfState) : PerfState :=
  if 2 ≤ s.trade_history.length then
    if (recentTrades s).length < 2 * recentWins s then
      { s with win_streak := s.win_streak + 1, loss_streak := 0,
               consecutive_wins := s.consecutive_wins + 1, consecutive_losses := 0,
               profit_factor := clampProfitFactor (s.win_streak + 1) 0 }
    else
      { s with loss_streak := s.loss_streak + 1, win_streak := 0,
               consecutive_losses := s.consecutive_losses + 1, consecutive_wins := 0,
               profit_factor := clampProfitFactor 0 (s.loss_streak + 1) }
  else s

def recordTrade (s : PerfState) (expectedProfit : ℚ) : PerfState :=
  let hist := s.trade_history ++ [expectedProfit]
  let hist' := if 1000 < hist.length then hist.drop (hist.length - 1000) else hist
  update_performance_tracking { s with trade_history := hist' }

def runTrades (ps : List ℚ) : PerfState := ps.foldl recordTrade initPerfState

/-! ## trader.py: dynamic confidence

`AdvancedTrader.calculate_dynamic_confidence` (trader.py lines 739-758):
confidence is computed from the already fully adjusted total score, scaled by
streak and volatility factors and capped at 0.98. -/

def calculate_dynamic_confidence (totalScore volatility volThreshold : ℚ)
    (winStreak lossStreak : ℕ) : ℚ :=
  let base := min |totalScore| (95/100)
  let base' :=
    if 3 ≤ winStreak then base * (11/10)
    else if 2 ≤ lossStreak then base * (9/10)
    else base
  let base'' := if volatility < volThreshold then base' * (23/20) else base'
  min base'' (49/50)

end TraderBot

namespace TechAnalysis

/-! ## technical_analysis.py: the indicator snapshot and its defaults

The `TechnicalIndicators` dataclass (technical_analysis.py lines 21-74) with
its literal field defaults: every moving average, support and resistance
default to 0.0, not to the last price. -/

structure TechnicalIndicators where
  rsi : ℚ := 50
  macd : ℚ := 0
  macd_signal : ℚ := 0
  macd_histogram : ℚ := 0
  bollinger_upper : ℚ := 0
  bollinger_lower : ℚ := 0
  bollinger_middle : ℚ := 0
  sma_5 : ℚ := 0
  sma_10 : ℚ := 0
  sma_20 : ℚ := 0
  sma_50 : ℚ := 0
  sma_100 : ℚ := 0
  ema_12 : ℚ := 0
  ema_26 : ℚ := 0
  ema_50 : ℚ := 0
  stoch_k : ℚ := 50
  stoch_d : ℚ := 50
  williams_r : ℚ := -50
  cci : ℚ := 0
  atr : ℚ := 0
  adx : ℚ := 0
  volatility : ℚ := 0
  momentum : ℚ := 0
  roc : ℚ := 0
  mfi : ℚ := 50
  ichimoku_tenkan : ℚ := 0
  ichimoku_kijun : ℚ := 0
  ichimoku_senkou_a : ℚ := 0
  ichimoku_senkou_b : ℚ := 0
  ichimoku_chikou : ℚ := 0
  support_level : ℚ := 0
  resistance_level : ℚ := 0
  pivot_point : ℚ := 0
  ml_prediction : ℚ := 0
  confidence_score : ℚ := 0
  trend_strength : ℚ := 0

/-- The all-default snapshot `TechnicalIndicators()`. -/
def neutralIndicators : TechnicalIndicators := {}

/-- The `MarketSignal` dataclass, restricted to the fields the decision logic
computes (`reasoning`, `timestamp` and `strategy` are logging metadata). -/
structure MarketSignal where
  signal : String
  confidence : ℚ
  strength : ℚ
  indicators : TechnicalIndicators
  risk_level : String

/-! ## technical_analysis.py: strategy weights and construction

`UltraOptimizedTechnicalAnalyzer.__init__` (lines 91-121) sets a static
weight table and performs no validation of any kind on it. -/

def strategy_weights : List (String × ℚ) :=
  [("momentum", 15/100), ("mean_reversion", 12/100), ("breakout", 10/100),
   ("trend_following", 12/100), ("volatility", 8/100),
   ("support_resistance", 10/100), ("ichimoku", 8/100),
   ("ml_prediction", 15/100)]

def sumWeights : ℚ := (strategy_weights.map Prod.snd).sum

/-- Everything `__init__` does to the weight table: it stores it.  There is
no check, so construction always succeeds and yields the table unchanged. -/
def analyzerInit : List (String × ℚ) := strategy_weights

/-- Weight lookup `self.strategy_weights.get(strategy, 0.1)`
(technical_analysis.py line 578). -/
def weightFor (name : String) : ℚ := (strategy_weights.lookup name).getD (1/10)

/-! ## technical_analysis.py: signal fusion

`generate_trading_signal` (lines 479-628).  The eight per-strategy scores are
pure comparisons over the indicator snapshot and the current mid price; the
ML score is produced by `get_ml_prediction` and enters as a parameter. -/

def strategyScores (ind : TechnicalIndicators) (mid ml : ℚ) : List (String × ℚ) :=
  [("momentum",
     if 0 < ind.momentum ∧ 0 < ind.roc then 8/10
     else if ind.momentum < 0 ∧ ind.roc < 0 then -(8/10) else 0),
   ("mean_reversion",
     if 70 < ind.rsi then -(7/10)
     else if ind.rsi < 30 then 7/10 else 0),
   ("breakout",
     if ind.resistance_level * (1001/1000) < mid then 9/10
     else if mid < ind.support_level * (999/1000) then -(9/10) else 0),
   ("trend_following",
     if ind.sma_50 < ind.sma_20 ∧ ind.sma_100 < ind.sma_50 ∧ ind.ema_26 < ind.ema_12
       then 8/10
     else if ind.sma_20 < ind.sma_50 ∧ ind.sma_50 < ind.sma_100 ∧ ind.ema_12 < ind.ema_26
       then -(8/10) else 0),
   ("volatility",
     if ind.atr * (3/2) < ind.volatility then 1/2 else 0),
   ("support_resistance",
     if mid < ind.support_level * (1002/1000) then 6/10
     else if ind.resistance_level * (998/1000) < mid then -(6/10) else 0),
   ("ichimoku",
     if ind.ichimoku_kijun < ind.ichimoku_tenkan ∧ ind.ichimoku_senkou_a < mid
       then 7/10
     else if ind.ichimoku_tenkan < ind.ichimoku_kijun ∧ mid < ind.ichimoku_senkou_a
       then -(7/10) else 0),
   ("ml_prediction", ml)]

def weightedSignal (scores : List (String × ℚ)) : ℚ :=
  scores.foldl (fun acc p => acc + p.2 * weightFor p.1) 0

def totalWeight (scores : List (String × ℚ)) : ℚ :=
  scores.foldl (fun acc p => acc + weightFor p.1) 0

/-- `final_signal = weighted_signal / total_weight if total_weight > 0 else 0`
(technical_analysis.py line 582). -/
def finalSignal (scores : List (String × ℚ)) : ℚ :=
  if 0 < totalWeight scores then weightedSignal scores / totalWeight scores else 0

/-- Decision thresholds and confidence (technical_analysis.py lines 585-593):
beyond ±0.3 the signal is BUY/SELL with confidence `min(|score| * 1.5, 1.0)`;
otherwise HOLD with the fixed confidence 0.5. -/
def signalDecision (fs : ℚ) : String × ℚ :=
  if 3/10 < fs then ("BUY", min (|fs| * (3/2)) 1)
  else if fs < -(3/10) then ("SELL", min (|fs| * (3/2)) 1)
  else ("HOLD", 1/2)

def riskLevel (ind : TechnicalIndicators) : String :=
  if ind.atr * 2 < ind.volatility then "HIGH"
  else if ind.atr * (3/2) < ind.volatility then "MEDIUM"
  else "LOW"

/-! ## technical_analysis.py: the insufficient-data guard

`get_price_dataframe` (lines 146-163) yields no dataframe below 50 samples
and `calculate_all_indicators` (lines 390-394) re-checks the same bound and
returns `None`; only with 50 or more samples does the indicator computation
run at all.  The computation on sufficient data is abstracted as the
parameter `compute`, since the claims under check concern only the guard. -/

def minWindow : ℕ := 50

def get_price_dataframe (history : List ℚ) : Option (List ℚ) :=
  if history.length < minWindow then none else some history

def calculate_all_indicators (compute : List ℚ → TechnicalIndicators)
    (history : List ℚ) : Option TechnicalIndicators :=
  match get_price_dataframe history with
  | none => none
  | some df => if df.length < minWindow then none else some (compute df)

/-- The fallback `MarketSignal` built when `calculate_all_indicators` yields
nothing (technical_analysis.py lines 484-493): HOLD, confidence 0, all-default
indicators. -/
def holdSignal : MarketSignal :=
  { signal := "HOLD", confidence := 0, strength := 0,
    indicators := neutralIndicators, risk_level := "LOW" }

def generate_trading_signal (compute : List ℚ → TechnicalIndicators) (ml : ℚ)
    (history : List ℚ) (mid : ℚ) : MarketSignal :=
  match calculate_all_indicators compute history with
  | none => holdSignal
  | some ind =>
      let fs := finalSignal (strategyScores ind mid ml)
      let sc := signalDecision fs
      { signal := sc.1, confidence := sc.2, strength := |fs|,
        indicators := ind, risk_level := riskLevel ind }

/-- A five-sample price series (below the 50-sample window), last price 2. -/
def shortSeries : List ℚ := [2, 2, 2, 2, 2]

/-- A 50-sample constant price series, used to drive the fusion with the
all-default indicator snapshot. -/
def flatFifty : List ℚ := List.replicate 50 0

/-! ## technical_analysis.py: RSI

`calculate_rsi` (lines 165-175).  pandas `Series.diff()` leaves `NaN` at
index 0, which `where(...)` then maps to 0 on both the gain and the loss
side, so the gain/loss series start with 0.  `ewm(span=14).mean()` with the
default `adjust=True` weights the reversed series with powers of
`1 - 2/(14+1) = 13/15` and divides by the weight sum.  The final division
`gain / loss` follows IEEE semantics in pandas: positive/0 gives `inf`
(hence RSI exactly 100) and 0/0 gives `NaN`, which propagates; `NaN` is
embedded as `none`. -/

def rsiAlpha : ℚ := 2/15

def diffs (xs : List ℚ) : List ℚ :=
  0 :: List.zipWith (fun cur prev => cur - prev) xs.tail xs

def gains (xs : List ℚ) : List ℚ :=
  (diffs xs).map (fun d => if 0 < d then d else 0)

def losses (xs : List ℚ) : List ℚ :=
  (diffs xs).map (fun d => if d < 0 then -d else 0)

def ewmWeights (a : ℚ) (n : ℕ) : List ℚ :=
  (List.range n).map (fun i => (1 - a) ^ i)

/-- Last element of `Series.ewm(span).mean()` with `adjust=True`. -/
def ewmLast (a : ℚ) (xs : List ℚ) : ℚ :=
  (List.zipWith (fun x w => x * w) xs.reverse (ewmWeights a xs.length)).sum
    / (ewmWeights a xs.length).sum

def avgGain (xs : List ℚ) : ℚ := ewmLast rsiAlpha (gains xs)

def avgLoss (xs : List ℚ) : ℚ := ewmLast rsiAlpha (losses xs)

/-- Last element of the RSI series of `calculate_rsi`: below `period + 1 = 15`
samples the function returns a constant series of 50s; otherwise the smoothed
gain/loss quotient enters `100 - 100 / (1 + rs)`, with `some 100` for the
`inf` case and `none` for the `NaN` case of 0/0. -/
def rsiLast (prices : List ℚ) : Option ℚ :=
  if prices.length < 15 then some 50
  else
    if avgLoss prices = 0 then
      (if avgGain prices = 0 then none else some 100)
    else some (100 - 100 / (1 + avgGain prices / avgLoss prices))

/-- Sixteen identical prices: every delta is 0, so both smoothed averages are
0 and the RSI quotient is the float 0/0. -/
def flatSeries : List ℚ := List.replicate 16 1

/-- Sixteen strictly increasing prices: all losses are 0 and some gain is
positive. -/
def upSeries : List ℚ :=
  [1, 2, 3, 4, 5, 6, 7, 8, 9, 10, 11, 12, 13, 14, 15, 16]

end TechAnalysis

namespace TradingCfg

/-! ## config.py: startup validation

`TradingConfig` defaults (config.py lines 11-26) and `Config._validate`
(lines 109-135), restricted to the trading-parameter checks; the credential
checks are skipped for the placeholder defaults.  `_validate` never looks at
any strategy weights. -/

structure TradingConfig where
  max_spread : ℚ := 3/10000
  risk_per_trade : ℚ := 15/1000
  max_position_size : ℤ := 50000
  min_confidence : ℚ := 3/4
  stop_loss_pips : ℤ := 20
  take_profit_pips : ℤ := 40
  max_daily_trades : ℤ := 50
  max_open_positions : ℤ := 5
deriving Repr, DecidableEq

/-- The error list accumulated by `Config._validate` over the trading
parameters; construction raises (fails fast) exactly when it is nonempty. -/
def validateTrading (t : TradingConfig) : List String :=
  (if t.risk_per_trade ≤ 0 ∨ 1/10 < t.risk_per_trade then
    ["Risk per trade must be between 0 and 0.1 (10%)"] else []) ++
  (if t.max_spread ≤ 0 then ["Max spread must be positive"] else []) ++
  (if t.min_confidence < 1/2 ∨ 1 < t.min_confidence then
    ["Min confidence must be between 0.5 and 1.0"] else [])

end TradingCfg

namespace TraderBot

lemma check_daily_limits_cap (dates : List ℤ) (today : ℤ) (balance : Option ℚ)
    (h : 50 ≤ (todaysTrades dates today).length) :
    check_daily_limits dates today balance = false := by
  simp [check_daily_limits, h]

end TraderBot

/-- C1: once the count of trades recorded for the current calendar day has
reached the cap of 50, `check_daily_limits` returns `false` and the trading
cycle executes no order for any instrument, whatever the downstream
per-instrument logic would have decided; and for a fresh day on which no
trade in the history falls, the daily counter is back to 0. -/
theorem daily_cap_blocks_all_trades :
    (∀ (dates : List ℤ) (today : ℤ) (balance : Option ℚ)
        (exposure : List String) (decide : String → Option ℤ),
        50 ≤ (TraderBot.todaysTrades dates today).length →
        TraderBot.trading_cycle dates today balance exposure decide = []) ∧
    (∀ (dates : List ℤ) (d' : ℤ), (∀ d ∈ dates, d ≠ d') →
        (TraderBot.todaysTrades dates d').length = 0) := by
  constructor
  · intro dates today balance exposure decide h
    rw [TraderBot.trading_cycle, TraderBot.check_daily_limits_cap dates today balance h]
    simp
  · intro dates d' h
    simp only [TraderBot.todaysTrades, List.length_eq_zero, List.filter_eq_nil_iff]
    intro a ha
    simpa using h a ha

/-- Witness for C1: with 50 trades already recorded today, a healthy balance,
no open exposure and a downstream that would trade 1000 units on every
instrument, the cycle still executes nothing; and a day with no recorded
trades has counter 0. -/
theorem daily_cap_blocks_all_trades_witness :
    TraderBot.trading_cycle (List.replicate 50 0) 0 (some 100) []
      (fun _ => some 1000) = [] ∧
    (TraderBot.todaysTrades [0, 0, 0] 1).length = 0 := by
  refine ⟨daily_cap_blocks_all_trades.1 (List.replicate 50 0) 0 (some 100) []
      (fun _ => some 1000) (by decide), ?_⟩
  exact daily_cap_blocks_all_trades.2 [0, 0, 0] 1 (by decide)

namespace TraderBot

lemma zero_or_lot (x : ℤ) :
    ((if 0 < x then max x 1000 else 0) = 0 ∨
      1000 ≤ (if 0 < x then max x 1000 else 0)) ∧
    0 ≤ (if 0 < x then max x 1000 else 0) := by
  split
  · exact ⟨Or.inr (le_max_right x 1000),
      le_trans (by norm_num) (le_max_right x 1000)⟩
  · exact ⟨Or.inl rfl, le_refl 0⟩

end TraderBot

/-- C9: for every balance, instrument, signal, confidence and regime, the
position sizer returns either 0 units or at least 1000 units, and never a
negative count. -/
theorem position_size_zero_or_min_lot :
    ∀ (balance : Option ℚ) (instrument signal : String) (confidence : ℚ)
      (regime : String),
      (TraderBot.calculate_optimal_position_size balance instrument signal
          confidence regime = 0 ∨
        1000 ≤ TraderBot.calculate_optimal_position_size balance instrument signal
          confidence regime) ∧
      0 ≤ TraderBot.calculate_optimal_position_size balance instrument signal
        confidence regime := by
  intro balance instrument signal confidence regime
  cases balance with
  | none => exact ⟨Or.inl rfl, le_refl 0⟩
  | some b =>
    rw [TraderBot.calculate_optimal_position_size]
    dsimp only
    split
    · exact ⟨Or.inl rfl, le_refl 0⟩
    · exact TraderBot.zero_or_lot _

namespace TraderBot

lemma penaltyOfCount_nonneg (c : ℕ) : 0 ≤ penaltyOfCount c := by
  rw [penaltyOfCount]
  exact le_min (by positivity) (by norm_num)

lemma penaltyOfCount_le_half (c : ℕ) : penaltyOfCount c ≤ 1/2 :=
  min_le_right _ _

lemma penaltyOfCount_mono {c₁ c₂ : ℕ} (h : c₁ ≤ c₂) :
    penaltyOfCount c₁ ≤ penaltyOfCount c₂ := by
  apply min_le_min _ le_rfl
  have : (c₁ : ℚ) ≤ (c₂ : ℚ) := by exact_mod_cast h
  nlinarith

end TraderBot

/-- C5: the correlation penalty equals `min (0.15 × count) 0.5` where `count`
is the number of correlated instruments currently holding open exposure, so
the multiplicative factor `1 - penalty` equals `1 - min 0.5 (0.15 × count)`;
the factor is monotonically non-increasing in the count, the penalty
saturates at the cap 0.5 (from count 4 on), and applying the factor never
amplifies the magnitude of the fused score. -/
theorem correlation_penalty_props :
    (∀ (exposure : List String) (instrument : String),
        TraderBot.calculate_correlation_penalty exposure instrument =
          TraderBot.penaltyOfCount (TraderBot.correlatedCount exposure instrument)) ∧
    (∀ c : ℕ, 1 - TraderBot.penaltyOfCount c = 1 - min (1/2) ((15/100) * (c : ℚ))) ∧
    (∀ c₁ c₂ : ℕ, c₁ ≤ c₂ →
        1 - TraderBot.penaltyOfCount c₂ ≤ 1 - TraderBot.penaltyOfCount c₁) ∧
    (∀ c : ℕ, 4 ≤ c → TraderBot.penaltyOfCount c = 1/2) ∧
    (∀ (score : ℚ) (c : ℕ),
        |TraderBot.applyCorrelationPenalty score (TraderBot.penaltyOfCount c)| ≤
          |score|) := by
  refine ⟨?_, ?_, ?_, ?_, ?_⟩
  · intro exposure instrument
    rw [TraderBot.calculate_correlation_penalty]
    split
    · rename_i h
      subst h
      simp [TraderBot.correlatedCount, TraderBot.penaltyOfCount]
    · rfl
  · intro c
    rw [TraderBot.penaltyOfCount, min_comm, mul_comm]
  · intro c₁ c₂ h
    exact sub_le_sub_left (TraderBot.penaltyOfCount_mono h) 1
  · intro c h
    rw [TraderBot.penaltyOfCount]
    apply min_eq_right
    have : (4 : ℚ) ≤ (c : ℚ) := by exact_mod_cast h
    nlinarith
  · intro score c
    rw [TraderBot.applyCorrelationPenalty, abs_mul]
    have h0 := TraderBot.penaltyOfCount_nonneg c
    have h1 := TraderBot.penaltyOfCount_le_half c
    have habs : |1 - TraderBot.penaltyOfCount c| ≤ 1 := by
      rw [abs_of_nonneg (by linarith)]
      linarith
    calc |score| * |1 - TraderBot.penaltyOfCount c| ≤ |score| * 1 :=
          mul_le_mul_of_nonneg_left habs (abs_nonneg score)
    _ = |score| := mul_one _

/-- Witness for C5: a concrete instrument with two correlated positions open,
monotonicity between counts 2 and 4, saturation at count 4, and
non-amplification at score 1. -/
theorem correlation_penalty_props_witness :
    TraderBot.calculate_correlation_penalty ["GBP_USD", "AUD_USD"] "EUR_USD" =
      TraderBot.penaltyOfCount 2 ∧
    1 - TraderBot.penaltyOfCount 4 ≤ 1 - TraderBot.penaltyOfCount 2 ∧
    TraderBot.penaltyOfCount 4 = 1/2 ∧
    |TraderBot.applyCorrelationPenalty 1 (TraderBot.penaltyOfCount 2)| ≤ |(1 : ℚ)| := by
  have h := correlation_penalty_props.1 ["GBP_USD", "AUD_USD"] "EUR_USD"
  have hc : TraderBot.correlatedCount ["GBP_USD", "AUD_USD"] "EUR_USD" = 2 := by decide
  rw [hc] at h
  exact ⟨h, correlation_penalty_props.2.2.1 2 4 (by decide),
    correlation_penalty_props.2.2.2.1 4 (by decide),
    correlation_penalty_props.2.2.2.2 1 2⟩

namespace TechAnalysis

lemma totalWeight_strategyScores (ind : TechnicalIndicators) (mid ml : ℚ) :
    totalWeight (strategyScores ind mid ml) = 9/10 := by
  simp only [totalWeight, strategyScores, List.foldl]
  simp only [weightFor, strategy_weights, List.lookup, String.reduceBEq,
    Option.getD_some]
  norm_num

lemma calculate_all_indicators_short (compute : List ℚ → TechnicalIndicators)
    (history : List ℚ) (h : history.length < 50) :
    calculate_all_indicators compute history = none := by
  have hg : get_price_dataframe history = none := by
    rw [get_price_dataframe]
    exact if_pos h
  rw [calculate_all_indicators, hg]

lemma signalDecision_cases (q : ℚ) :
    (3/10 < |q| → (signalDecision q).2 = min (|q| * (3/2)) 1) ∧
    (|q| ≤ 3/10 → signalDecision q = ("HOLD", 1/2)) ∧
    0 ≤ (signalDecision q).2 ∧ (signalDecision q).2 ≤ 1 := by
  rw [signalDecision]
  split_ifs with h1 h2
  · have habs : 3/10 < |q| := lt_of_lt_of_le h1 (le_abs_self q)
    exact ⟨fun _ => rfl, fun hle => absurd habs (not_lt.mpr hle),
      le_min (by positivity) (by norm_num), min_le_right _ _⟩
  · have habs : 3/10 < |q| := by
      rw [abs_of_neg (by linarith)]
      linarith
    exact ⟨fun _ => rfl, fun hle => absurd habs (not_lt.mpr hle),
      le_min (by positivity) (by norm_num), min_le_right _ _⟩
  · have habs : |q| ≤ 3/10 := abs_le.mpr ⟨by linarith, by linarith⟩
    exact ⟨fun hgt => absurd hgt (not_lt.mpr habs), fun _ => rfl,
      by norm_num, by norm_num⟩

end TechAnalysis

/-- C2 counterexample: the static strategy-weight table sums to 0.90, not 1,
yet the analyzer constructor stores it unchanged (performing no validation)
and `Config._validate` accepts the default configuration without looking at
any weights — so construction does not fail fast. -/
theorem weights_validation_counterexample :
    TechAnalysis.sumWeights = 9/10 ∧ TechAnalysis.sumWeights ≠ 1 ∧
    TechAnalysis.analyzerInit = TechAnalysis.strategy_weights ∧
    TradingCfg.validateTrading {} = [] := by
  refine ⟨by norm_num [TechAnalysis.sumWeights, TechAnalysis.strategy_weights],
    ?_, rfl, by norm_num [TradingCfg.validateTrading]⟩
  norm_num [TechAnalysis.sumWeights, TechAnalysis.strategy_weights]

/-- C2 amended: the static strategy-weight table sums to 0.90; no
construction-time validation of the weights exists (construction stores the
table as is, and the configuration validator checks only risk, spread and
confidence bounds), and the fusion instead normalizes the weighted sum by
the actual total weight 0.90. -/
theorem weights_sum_amended :
    TechAnalysis.sumWeights = 9/10 ∧
    TechAnalysis.analyzerInit = TechAnalysis.strategy_weights ∧
    TradingCfg.validateTrading {} = [] ∧
    (∀ (ind : TechAnalysis.TechnicalIndicators) (mid ml : ℚ),
      TechAnalysis.totalWeight (TechAnalysis.strategyScores ind mid ml) = 9/10) := by
  refine ⟨by norm_num [TechAnalysis.sumWeights, TechAnalysis.strategy_weights],
    rfl, by norm_num [TradingCfg.validateTrading], ?_⟩
  intro ind mid ml
  exact TechAnalysis.totalWeight_strategyScores ind mid ml

/-- C7 counterexample: a 10-sample balance window whose maximum relative
change is 6% (above the claimed 5% CRISIS trigger) but whose mean change
lies in the NORMAL band: the classifier returns NORMAL, never CRISIS. -/
theorem regime_crisis_counterexample :
    (6/100 : ℚ) ∈ TraderBot.relChanges (TraderBot.last10 TraderBot.crisisExample) ∧
    (5/100 : ℚ) < 6/100 ∧
    TraderBot.analyze_market_regime TraderBot.crisisExample = "NORMAL" ∧
    "NORMAL" ≠ "CRISIS" := by
  refine ⟨?_, by norm_num, ?_, by decide⟩
  · simp [TraderBot.relChanges, TraderBot.last10, TraderBot.crisisExample]
    norm_num
  · simp [TraderBot.analyze_market_regime, TraderBot.last10, TraderBot.crisisExample,
      TraderBot.meanRelChange, TraderBot.relChanges, TraderBot.volatileThreshold,
      TraderBot.trendingThreshold]
    norm_num

/-- C7 amended: the regime classifier examines only the mean of the relative
balance changes over the trailing 10-sample window — VOLATILE above 2%,
TRENDING below 0.5%, NORMAL otherwise — and returns NORMAL for short windows;
it never inspects the maximum change and never returns CRISIS. -/
theorem regime_classifier_amended :
    (∀ h : List ℚ, TraderBot.analyze_market_regime h ≠ "CRISIS") ∧
    (∀ h : List ℚ, h.length < 10 → TraderBot.analyze_market_regime h = "NORMAL") ∧
    (∀ h : List ℚ, 10 ≤ h.length →
      ((TraderBot.last10 h).dropLast.any (fun b => b == 0)) = false →
      TraderBot.analyze_market_regime h =
        (if TraderBot.volatileThreshold < TraderBot.meanRelChange (TraderBot.last10 h)
          then "VOLATILE"
         else if TraderBot.meanRelChange (TraderBot.last10 h) < TraderBot.trendingThreshold
          then "TRENDING"
         else "NORMAL")) := by
  refine ⟨?_, ?_, ?_⟩
  · intro h
    rw [TraderBot.analyze_market_regime]
    split_ifs <;> decide
  · intro h hlen
    rw [TraderBot.analyze_market_regime, if_pos hlen]
  · intro h hlen hz
    rw [TraderBot.analyze_market_regime, if_neg (by omega), hz]
    simp

/-- Witness for C7 amended: the classifier at the crisis-shaped window is not
CRISIS, the empty history classifies as NORMAL, and for the concrete window
the mean-based case analysis applies. -/
theorem regime_classifier_amended_witness :
    TraderBot.analyze_market_regime TraderBot.crisisExample ≠ "CRISIS" ∧
    TraderBot.analyze_market_regime [] = "NORMAL" ∧
    TraderBot.analyze_market_regime TraderBot.crisisExample =
      (if TraderBot.volatileThreshold <
          TraderBot.meanRelChange (TraderBot.last10 TraderBot.crisisExample)
        then "VOLATILE"
       else if TraderBot.meanRelChange (TraderBot.last10 TraderBot.crisisExample) <
          TraderBot.trendingThreshold
        then "TRENDING"
       else "NORMAL") := by
  refine ⟨regime_classifier_amended.1 TraderBot.crisisExample,
    regime_classifier_amended.2.1 [] (by decide),
    regime_classifier_amended.2.2 TraderBot.crisisExample (by decide) ?_⟩
  simp [TraderBot.last10, TraderBot.crisisExample]

namespace TraderBot

lemma clampProfitFactor_bounds (w l : ℕ) :
    1/2 ≤ clampProfitFactor w l ∧ clampProfitFactor w l ≤ 2 := by
  constructor
  · exact le_max_left _ _
  · exact max_le (by norm_num) (min_le_left _ _)

lemma update_pf (s : PerfState)
    (h : s.profit_factor = clampProfitFactor s.win_streak s.loss_streak) :
    (update_performance_tracking s).profit_factor =
      clampProfitFactor (update_performance_tracking s).win_streak
        (update_performance_tracking s).loss_streak := by
  rw [update_performance_tracking]
  split
  · split <;> rfl
  · exact h

lemma perf_invariant_step (s : PerfState) (p : ℚ)
    (h : s.profit_factor = clampProfitFactor s.win_streak s.loss_streak) :
    (recordTrade s p).profit_factor =
      clampProfitFactor (recordTrade s p).win_streak (recordTrade s p).loss_streak :=
  update_pf _ h

lemma perf_invariant_foldl (ps : List ℚ) (s : PerfState)
    (h : s.profit_factor = clampProfitFactor s.win_streak s.loss_streak) :
    (ps.foldl recordTrade s).profit_factor =
      clampProfitFactor (ps.foldl recordTrade s).win_streak
        (ps.foldl recordTrade s).loss_streak := by
  induction ps generalizing s with
  | nil => exact h
  | cons p ps ih => exact ih (recordTrade s p) (perf_invariant_step s p h)

end TraderBot

/-- C8: after any sequence of recorded trade outcomes, the profit factor
equals `clamp (1 + 0.1 × win_streak - 0.05 × loss_streak) 0.5 2.0` for the
current streak counters, and therefore always lies in [0.5, 2.0]. -/
theorem profit_factor_clamped :
    ∀ ps : List ℚ,
      (TraderBot.runTrades ps).profit_factor =
        TraderBot.clampProfitFactor (TraderBot.runTrades ps).win_streak
          (TraderBot.runTrades ps).loss_streak ∧
      1/2 ≤ (TraderBot.runTrades ps).profit_factor ∧
      (TraderBot.runTrades ps).profit_factor ≤ 2 := by
  intro ps
  have hinit : TraderBot.initPerfState.profit_factor =
      TraderBot.clampProfitFactor TraderBot.initPerfState.win_streak
        TraderBot.initPerfState.loss_streak := by
    rw [TraderBot.initPerfState, TraderBot.clampProfitFactor]
    norm_num
  have h := TraderBot.perf_invariant_foldl ps TraderBot.initPerfState hinit
  rw [TraderBot.runTrades]
  refine ⟨h, ?_, ?_⟩
  · rw [h]
    exact (TraderBot.clampProfitFactor_bounds _ _).1
  · rw [h]
    exact (TraderBot.clampProfitFactor_bounds _ _).2

/-- C3 counterexample: for a five-sample series with last price 2 the
indicator engine returns no snapshot at all (`None`, not a neutral snapshot),
and the default snapshot substituted downstream carries moving averages and
support/resistance equal to 0, not to the last price. -/
theorem neutral_default_counterexample :
    TechAnalysis.calculate_all_indicators (fun _ => TechAnalysis.neutralIndicators)
      TechAnalysis.shortSeries = none ∧
    TechAnalysis.shortSeries.getLast? = some 2 ∧
    TechAnalysis.holdSignal.indicators.sma_20 = 0 ∧
    TechAnalysis.holdSignal.indicators.support_level = 0 ∧
    TechAnalysis.holdSignal.indicators.resistance_level = 0 ∧
    ((0 : ℚ) = 2 → False) := by
  refine ⟨TechAnalysis.calculate_all_indicators_short _ _ (by decide),
    rfl, rfl, rfl, rfl, by norm_num⟩

/-- C3 amended: for every price series shorter than the 50-sample minimum
window, `calculate_all_indicators` returns no snapshot (`None`); the signal
generator then falls back to the all-default `TechnicalIndicators` — RSI 50,
stochastic %K/%D 50, Williams %R -50, MACD/histogram 0, ATR/ADX/CCI/
momentum/ROC 0, but every moving average and support/resistance 0 rather
than the last price — inside a HOLD signal of confidence 0. -/
theorem neutral_default_amended :
    ∀ (compute : List ℚ → TechAnalysis.TechnicalIndicators) (history : List ℚ)
      (ml mid : ℚ),
      history.length < 50 →
      TechAnalysis.calculate_all_indicators compute history = none ∧
      TechAnalysis.generate_trading_signal compute ml history mid =
        TechAnalysis.holdSignal ∧
      TechAnalysis.holdSignal.indicators.rsi = 50 ∧
      TechAnalysis.holdSignal.indicators.stoch_k = 50 ∧
      TechAnalysis.holdSignal.indicators.stoch_d = 50 ∧
      TechAnalysis.holdSignal.indicators.williams_r = -50 ∧
      TechAnalysis.holdSignal.indicators.macd = 0 ∧
      TechAnalysis.holdSignal.indicators.macd_histogram = 0 ∧
      TechAnalysis.holdSignal.indicators.atr = 0 ∧
      TechAnalysis.holdSignal.indicators.adx = 0 ∧
      TechAnalysis.holdSignal.indicators.cci = 0 ∧
      TechAnalysis.holdSignal.indicators.momentum = 0 ∧
      TechAnalysis.holdSignal.indicators.roc = 0 ∧
      TechAnalysis.holdSignal.indicators.sma_20 = 0 ∧
      TechAnalysis.holdSignal.indicators.sma_50 = 0 ∧
      TechAnalysis.holdSignal.indicators.support_level = 0 ∧
      TechAnalysis.holdSignal.indicators.resistance_level = 0 ∧
      TechAnalysis.holdSignal.signal = "HOLD" ∧
      TechAnalysis.holdSignal.confidence = 0 := by
  intro compute history ml mid h
  have hnone := TechAnalysis.calculate_all_indicators_short compute history h
  refine ⟨hnone, ?_, rfl, rfl, rfl, rfl, rfl, rfl, rfl, rfl, rfl, rfl, rfl,
    rfl, rfl, rfl, rfl, rfl, rfl⟩
  rw [TechAnalysis.generate_trading_signal, hnone]

/-- Witness for C3 amended: the five-sample series is below the window, the
engine yields no snapshot, and the generated signal is the HOLD fallback. -/
theorem neutral_default_amended_witness :
    TechAnalysis.shortSeries.length < 50 ∧
    TechAnalysis.calculate_all_indicators (fun _ => TechAnalysis.neutralIndicators)
      TechAnalysis.shortSeries = none ∧
    TechAnalysis.generate_trading_signal (fun _ => TechAnalysis.neutralIndicators) 0
      TechAnalysis.shortSeries 2 = TechAnalysis.holdSignal := by
  have h := neutral_default_amended (fun _ => TechAnalysis.neutralIndicators)
    TechAnalysis.shortSeries 0 2 (by decide)
  exact ⟨by decide, h.1, h.2.1⟩

namespace TechAnalysis

lemma strategyScores_neutral :
    strategyScores neutralIndicators 0 0 =
      [("momentum", 0), ("mean_reversion", 0), ("breakout", 0),
       ("trend_following", 0), ("volatility", 0), ("support_resistance", 0),
       ("ichimoku", 0), ("ml_prediction", 0)] := by
  simp only [strategyScores, neutralIndicators]
  norm_num

lemma finalSignal_neutral :
    finalSignal (strategyScores neutralIndicators 0 0) = 0 := by
  rw [finalSignal, if_pos, strategyScores_neutral]
  · have hws : weightedSignal
        [("momentum", (0:ℚ)), ("mean_reversion", 0), ("breakout", 0),
         ("trend_following", 0), ("volatility", 0), ("support_resistance", 0),
         ("ichimoku", 0), ("ml_prediction", 0)] = 0 := by
      simp [weightedSignal, List.foldl]
    rw [hws, zero_div]
  · rw [totalWeight_strategyScores]
    norm_num

end TechAnalysis

/-- C4 counterexample: on the 50-sample flat series with the all-default
snapshot the fused weighted sum is 0, so the claimed formula gives confidence
`min (|0| × 1.5) 1 = 0`, yet the generated HOLD signal carries the fixed
confidence 0.5 — the formula does not hold on the HOLD branch. -/
theorem fusion_confidence_counterexample :
    TechAnalysis.finalSignal
      (TechAnalysis.strategyScores TechAnalysis.neutralIndicators 0 0) = 0 ∧
    (TechAnalysis.generate_trading_signal (fun _ => TechAnalysis.neutralIndicators)
        0 TechAnalysis.flatFifty 0).confidence = 1/2 ∧
    min (|(0 : ℚ)| * (3/2)) 1 = 0 ∧
    ((1/2 : ℚ) = 0 → False) := by
  have hind : TechAnalysis.calculate_all_indicators
      (fun _ => TechAnalysis.neutralIndicators) TechAnalysis.flatFifty =
        some TechAnalysis.neutralIndicators := by
    have hg : TechAnalysis.get_price_dataframe TechAnalysis.flatFifty =
        some TechAnalysis.flatFifty := by
      rw [TechAnalysis.get_price_dataframe]
      exact if_neg (by decide)
    rw [TechAnalysis.calculate_all_indicators, hg]
    exact if_neg (by decide)
  refine ⟨TechAnalysis.finalSignal_neutral, ?_, by norm_num, by norm_num⟩
  rw [TechAnalysis.generate_trading_signal, hind]
  dsimp only
  rw [TechAnalysis.finalSignal_neutral, TechAnalysis.signalDecision]
  norm_num

/-- C4 amended: in `generate_trading_signal`, confidence equals
`min (|weighted_sum| × 1.5) 1` exactly on the BUY/SELL branches
(`|weighted_sum| > 0.3`) and is the fixed 0.5 on the HOLD branch; no
regime/volatility/correlation/streak adjustment exists in this path and
confidence always lies in [0,1].  In the trader's separate scoring path the
confidence is computed from the already-adjusted total score as
`min(|score|, 0.95)` with streak/volatility multipliers capped at 0.98, and
it also always lies in [0,1]. -/
theorem fusion_confidence_amended :
    (∀ scores : List (String × ℚ),
      (3/10 < |TechAnalysis.finalSignal scores| →
        (TechAnalysis.signalDecision (TechAnalysis.finalSignal scores)).2 =
          min (|TechAnalysis.finalSignal scores| * (3/2)) 1) ∧
      (|TechAnalysis.finalSignal scores| ≤ 3/10 →
        TechAnalysis.signalDecision (TechAnalysis.finalSignal scores) =
          ("HOLD", 1/2)) ∧
      0 ≤ (TechAnalysis.signalDecision (TechAnalysis.finalSignal scores)).2 ∧
      (TechAnalysis.signalDecision (TechAnalysis.finalSignal scores)).2 ≤ 1) ∧
    (∀ (ts v vt : ℚ) (w l : ℕ),
      0 ≤ TraderBot.calculate_dynamic_confidence ts v vt w l ∧
      TraderBot.calculate_dynamic_confidence ts v vt w l ≤ 1) := by
  constructor
  · intro scores
    exact TechAnalysis.signalDecision_cases (TechAnalysis.finalSignal scores)
  · intro ts v vt w l
    have hb : (0 : ℚ) ≤ min |ts| (95/100) := le_min (abs_nonneg ts) (by norm_num)
    rw [TraderBot.calculate_dynamic_confidence]
    constructor
    · dsimp only
      split_ifs <;> refine le_min (by nlinarith) (by norm_num)
    · exact le_trans (min_le_right _ _) (by norm_num)

/-- Witness for C4 amended: a single-strategy score list with fused value 1
takes the BUY branch with confidence `min (1.5) 1`; the neutral score list
takes the HOLD branch with confidence 0.5; the dynamic-confidence path at
concrete inputs stays within [0,1]. -/
theorem fusion_confidence_amended_witness :
    (TechAnalysis.signalDecision
        (TechAnalysis.finalSignal [("ml_prediction", 1)])).2 =
      min (|TechAnalysis.finalSignal [("ml_prediction", 1)]| * (3/2)) 1 ∧
    TechAnalysis.signalDecision
        (TechAnalysis.finalSignal
          (TechAnalysis.strategyScores TechAnalysis.neutralIndicators 0 0)) =
      ("HOLD", 1/2) ∧
    0 ≤ TraderBot.calculate_dynamic_confidence 1 0 1 0 0 ∧
    TraderBot.calculate_dynamic_confidence 1 0 1 0 0 ≤ 1 := by
  have hone : TechAnalysis.finalSignal [("ml_prediction", (1:ℚ))] = 1 := by
    rw [TechAnalysis.finalSignal]
    rw [if_pos]
    · simp only [TechAnalysis.weightedSignal, TechAnalysis.totalWeight, List.foldl]
      simp only [TechAnalysis.weightFor, TechAnalysis.strategy_weights,
        List.lookup, String.reduceBEq, Option.getD_some]
      norm_num
    · simp only [TechAnalysis.totalWeight, List.foldl]
      simp only [TechAnalysis.weightFor, TechAnalysis.strategy_weights,
        List.lookup, String.reduceBEq, Option.getD_some]
      norm_num
  refine ⟨(fusion_confidence_amended.1 [("ml_prediction", 1)]).1 ?_,
    (fusion_confidence_amended.1
      (TechAnalysis.strategyScores TechAnalysis.neutralIndicators 0 0)).2.1 ?_,
    (fusion_confidence_amended.2 1 0 1 0 0).1,
    (fusion_confidence_amended.2 1 0 1 0 0).2⟩
  · rw [hone]
    norm_num
  · rw [TechAnalysis.finalSignal_neutral]
    norm_num

namespace TechAnalysis

lemma zipWith_mul_sum_nonneg :
    ∀ (xs ys : List ℚ), (∀ x ∈ xs, 0 ≤ x) → (∀ y ∈ ys, 0 ≤ y) →
      0 ≤ (List.zipWith (fun x w => x * w) xs ys).sum := by
  intro xs
  induction xs with
  | nil => intro ys _ _; simp
  | cons x xs ih =>
    intro ys hx hy
    cases ys with
    | nil => simp
    | cons y ys =>
      simp only [List.zipWith, List.sum_cons]
      have h1 := ih ys (fun a ha => hx a (List.mem_cons_of_mem x ha))
        (fun a ha => hy a (List.mem_cons_of_mem y ha))
      have h2 : 0 ≤ x * y :=
        mul_nonneg (hx x (List.mem_cons_self x xs)) (hy y (List.mem_cons_self y ys))
      linarith

lemma ewmWeights_nonneg (n : ℕ) : ∀ w ∈ ewmWeights rsiAlpha n, 0 ≤ w := by
  intro w hw
  rw [ewmWeights] at hw
  obtain ⟨i, _, rfl⟩ := List.mem_map.mp hw
  have : (1 : ℚ) - rsiAlpha = 13/15 := by norm_num [rsiAlpha]
  rw [this]
  positivity

lemma list_sum_nonneg (l : List ℚ) (h : ∀ x ∈ l, 0 ≤ x) : 0 ≤ l.sum := by
  induction l with
  | nil => simp
  | cons x xs ih =>
    rw [List.sum_cons]
    have := ih (fun a ha => h a (List.mem_cons_of_mem x ha))
    have := h x (List.mem_cons_self x xs)
    linarith

lemma ewmLast_nonneg (xs : List ℚ) (h : ∀ x ∈ xs, 0 ≤ x) :
    0 ≤ ewmLast rsiAlpha xs := by
  rw [ewmLast]
  apply div_nonneg
  · exact zipWith_mul_sum_nonneg xs.reverse (ewmWeights rsiAlpha xs.length)
      (fun a ha => h a (List.mem_reverse.mp ha)) (ewmWeights_nonneg xs.length)
  · exact list_sum_nonneg _ (ewmWeights_nonneg xs.length)

lemma avgGain_nonneg (xs : List ℚ) : 0 ≤ avgGain xs := by
  rw [avgGain]
  apply ewmLast_nonneg
  intro x hx
  rw [gains] at hx
  obtain ⟨d, _, rfl⟩ := List.mem_map.mp hx
  split <;> simp_all [le_of_lt]

lemma avgLoss_nonneg (xs : List ℚ) : 0 ≤ avgLoss xs := by
  rw [avgLoss]
  apply ewmLast_nonneg
  intro x hx
  rw [losses] at hx
  obtain ⟨d, _, rfl⟩ := List.mem_map.mp hx
  split <;> simp_all [le_of_lt]

end TechAnalysis

/-- C6 counterexample: on sixteen identical prices every delta is zero, both
smoothed averages are zero, and the RSI computation produces the float 0/0 —
`NaN`, embedded as `none` — so there is no RSI value in [0,100] at all for
this finite input series. -/
theorem rsi_nan_counterexample :
    TechAnalysis.rsiLast TechAnalysis.flatSeries = none ∧
    ¬ ∃ q : ℚ, TechAnalysis.rsiLast TechAnalysis.flatSeries = some q ∧
      0 ≤ q ∧ q ≤ 100 := by
  have hn : TechAnalysis.rsiLast TechAnalysis.flatSeries = none := by
    have hl : TechAnalysis.avgLoss TechAnalysis.flatSeries = 0 := by
      norm_num [TechAnalysis.avgLoss, TechAnalysis.losses, TechAnalysis.diffs,
        TechAnalysis.flatSeries, TechAnalysis.ewmLast, TechAnalysis.ewmWeights,
        TechAnalysis.rsiAlpha, List.replicate, List.range, List.range.loop]
    have hg : TechAnalysis.avgGain TechAnalysis.flatSeries = 0 := by
      norm_num [TechAnalysis.avgGain, TechAnalysis.gains, TechAnalysis.diffs,
        TechAnalysis.flatSeries, TechAnalysis.ewmLast, TechAnalysis.ewmWeights,
        TechAnalysis.rsiAlpha, List.replicate, List.range, List.range.loop]
    rw [TechAnalysis.rsiLast, if_neg (by decide), if_pos hl, if_pos hg]
  refine ⟨hn, ?_⟩
  rintro ⟨q, hq, -⟩
  rw [hn] at hq
  exact Option.noConfusion hq

/-- C6 amended: every rational value the RSI computation produces lies in
[0,100], and it is exactly 100 precisely when the smoothed average loss is 0
while the smoothed average gain is positive (for series long enough to enter
the smoothing path); however, for a series whose smoothed average gain and
loss are both zero (a constant window) the result is the float NaN
(embedded as `none`) rather than a value in [0,100]; no division error is
ever raised. -/
theorem rsi_range_amended :
    ∀ xs : List ℚ,
      (∀ q : ℚ, TechAnalysis.rsiLast xs = some q → 0 ≤ q ∧ q ≤ 100) ∧
      (TechAnalysis.rsiLast xs = some 100 ↔
        15 ≤ xs.length ∧ TechAnalysis.avgLoss xs = 0 ∧
          0 < TechAnalysis.avgGain xs) ∧
      (TechAnalysis.rsiLast xs = none ↔
        15 ≤ xs.length ∧ TechAnalysis.avgLoss xs = 0 ∧
          TechAnalysis.avgGain xs = 0) := by
  intro xs
  rw [TechAnalysis.rsiLast]
  by_cases hlen : xs.length < 15
  · rw [if_pos hlen]
    refine ⟨?_, ?_, ?_⟩
    · intro q hq
      rw [Option.some_inj] at hq
      subst hq
      norm_num
    · constructor
      · intro h50
        rw [Option.some_inj] at h50
        norm_num at h50
      · rintro ⟨h, -, -⟩
        omega
    · constructor
      · intro hcon
        exact Option.noConfusion hcon
      · rintro ⟨h, -, -⟩
        omega
  · rw [if_neg hlen]
    have hlen' : 15 ≤ xs.length := not_lt.mp hlen
    by_cases hl : TechAnalysis.avgLoss xs = 0
    · rw [if_pos hl]
      by_cases hg : TechAnalysis.avgGain xs = 0
      · rw [if_pos hg]
        refine ⟨fun q hq => Option.noConfusion hq, ?_, ?_⟩
        · constructor
          · intro hcon
            exact Option.noConfusion hcon
          · rintro ⟨-, -, hgpos⟩
            rw [hg] at hgpos
            exact absurd hgpos (lt_irrefl 0)
        · exact ⟨fun _ => ⟨hlen', hl, hg⟩, fun _ => rfl⟩
      · rw [if_neg hg]
        have hgpos : 0 < TechAnalysis.avgGain xs :=
          lt_of_le_of_ne (TechAnalysis.avgGain_nonneg xs) (Ne.symm hg)
        refine ⟨?_, ?_, ?_⟩
        · intro q hq
          rw [Option.some_inj] at hq
          subst hq
          norm_num
        · exact ⟨fun _ => ⟨hlen', hl, hgpos⟩, fun _ => rfl⟩
        · constructor
          · intro hcon
            exact Option.noConfusion hcon
          · rintro ⟨-, -, hg0⟩
            exact absurd hg0 hg
    · rw [if_neg hl]
      have hlpos : 0 < TechAnalysis.avgLoss xs :=
        lt_of_le_of_ne (TechAnalysis.avgLoss_nonneg xs) (Ne.symm hl)
      have hgn : 0 ≤ TechAnalysis.avgGain xs := TechAnalysis.avgGain_nonneg xs
      have hrs : 0 ≤ TechAnalysis.avgGain xs / TechAnalysis.avgLoss xs :=
        div_nonneg hgn hlpos.le
      have h1 : (0 : ℚ) < 1 + TechAnalysis.avgGain xs / TechAnalysis.avgLoss xs := by
        linarith
      have hfrac_pos :
          0 < 100 / (1 + TechAnalysis.avgGain xs / TechAnalysis.avgLoss xs) :=
        div_pos (by norm_num) h1
      have hfrac_le :
          100 / (1 + TechAnalysis.avgGain xs / TechAnalysis.avgLoss xs) ≤ 100 :=
        div_le_self (by norm_num) (by linarith)
      refine ⟨?_, ?_, ?_⟩
      · intro q hq
        rw [Option.some_inj] at hq
        subst hq
        constructor <;> linarith
      · constructor
        · intro h100
          rw [Option.some_inj] at h100
          exfalso
          have : (100 : ℚ) /
              (1 + TechAnalysis.avgGain xs / TechAnalysis.avgLoss xs) = 0 := by
            linarith
          linarith
        · rintro ⟨-, hl0, -⟩
          exact absurd hl0 hl
      · constructor
        · intro hcon
          exact Option.noConfusion hcon
        · rintro ⟨-, hl0, -⟩
          exact absurd hl0 hl

/-- Witness for C6 amended: on sixteen strictly increasing prices the
smoothed average loss is 0 and the smoothed average gain is positive, so the
theorem yields RSI exactly 100, which is inside [0,100]. -/
theorem rsi_range_amended_witness :
    TechAnalysis.rsiLast TechAnalysis.upSeries = some 100 ∧
    0 ≤ (100 : ℚ) ∧ (100 : ℚ) ≤ 100 := by
  have hl : TechAnalysis.avgLoss TechAnalysis.upSeries = 0 := by
    norm_num [TechAnalysis.avgLoss, TechAnalysis.losses, TechAnalysis.diffs,
      TechAnalysis.upSeries, TechAnalysis.ewmLast, TechAnalysis.ewmWeights,
      TechAnalysis.rsiAlpha, List.range, List.range.loop]
  have hg : 0 < TechAnalysis.avgGain TechAnalysis.upSeries := by
    norm_num [TechAnalysis.avgGain, TechAnalysis.gains, TechAnalysis.diffs,
      TechAnalysis.upSeries, TechAnalysis.ewmLast, TechAnalysis.ewmWeights,
      TechAnalysis.rsiAlpha, List.range, List.range.loop]
  have h := rsi_range_amended TechAnalysis.upSeries
  have h100 : TechAnalysis.rsiLast TechAnalysis.upSeries = some 100 :=
    h.2.1.mpr ⟨by decide, hl, hg⟩
  exact ⟨h100, (h.1 100 h100).1, (h.1 100 h100).2⟩

/-- C10: the daily-limits check is fail-closed in its balance fetch: whenever
`get_balance` yields no value (it returns `None` on any API or internal
error), or the falsy balance 0.0, `check_daily_limits` reports the limits as
exceeded (`false`), independently of the trade history. -/
theorem daily_limits_fail_closed :
    ∀ (dates : List ℤ) (today : ℤ),
      TraderBot.check_daily_limits dates today none = false ∧
      TraderBot.check_daily_limits dates today (some 0) = false := by
  intro dates today
  constructor <;>
    · rw [TraderBot.check_daily_limits]
      split <;> simp
